import Mathlib

/-!
Shallow embedding of the relevance-filtering core of the
stretching-coach-ai/coach-ml repository: the `StretchingClassifier`
heuristic (src/test_stretching.py) and the `FactChecker` retry /
rate-limit / batch loop (src/fact_checker.py).

Strings are modelled as Lean `String`s, Python floats that only ever
enter threshold comparisons (the verifier confidence) as `ℚ`, sleeps in
whole seconds as `Nat`, and the per-attempt HTTP outcome as an explicit
`ApiResponse` value supplied by the environment.
-/

namespace CoachML

/-- ASCII lowercasing of a single character, the effect of Python
`str.lower` on the ASCII range (the Korean characters appearing in the
data have no case). -/
def lowerAscii (c : Char) : Char :=
  if 'A' ≤ c ∧ c ≤ 'Z' then Char.ofNat (c.toNat + 32) else c

/-- Python `text.lower()` on the character list of a string. -/
def lowerStr (cs : List Char) : List Char := cs.map lowerAscii

/-- Holds when `pat` occurs at the very beginning of `cs` (exact, case-sensitive). -/
def prefAt : List Char → List Char → Bool
  | [], _ => true
  | _ :: _, [] => false
  | p :: ps, c :: cs => p == c && prefAt ps cs

/-- Python's `pat in cs`: `pat` is a contiguous substring of `cs`. -/
def substrOf (pat : List Char) : List Char → Bool
  | [] => pat.isEmpty
  | c :: cs => prefAt pat (c :: cs) || substrOf pat cs

/-- The fixed multilingual keyword list of
`StretchingClassifier.classify_text` (src/test_stretching.py lines
35-42), in source order. -/
def stretching_keywords : List String :=
  ["스트레칭", "stretching", "신장", "유연성", "가동성", "flexibility",
   "mobility", "근육", "관절", "자세", "신전", "이완", "신장성",
   "ROM", "가동범위", "관절가동범위", "근막", "fascia",
   "근육신장", "muscle stretching", "관절가동", "joint mobility",
   "유연성운동", "flexibility exercise", "동적스트레칭", "정적스트레칭",
   "PNF", "proprioceptive", "신경근", "neuromuscular"]

/-- The test `keyword in text.lower()` exactly as the source writes it: the text
is lowercased, the keyword is compared as written. -/
def keywordHit (kw : String) (text : String) : Bool :=
  substrOf kw.data (lowerStr text.data)

/-- The source's `has_keyword = any(keyword in text.lower() for keyword in
stretching_keywords)` (src/test_stretching.py line 45). -/
def has_keyword (text : String) : Bool :=
  stretching_keywords.any (fun kw => keywordHit kw text)

/-- The source's `found_keywords = [kw for kw in stretching_keywords if kw in
text.lower()]` (src/test_stretching.py line 47): matching keywords in
canonical list order. -/
def found_keywords (text : String) : List String :=
  stretching_keywords.filter (fun kw => keywordHit kw text)

/-- Modelled from the spec: "case-insensitive substring search of a
fixed multilingual keyword list against the input text" — both the text
and the keyword are taken case-insensitively.  Used only to compare the
spec's wording with the code's `has_keyword`. -/
def spec_has_keyword_ci (text : String) : Bool :=
  stretching_keywords.any (fun kw => substrOf (lowerStr kw.data) (lowerStr text.data))

/-- One step of matching the `.*` part of a pattern `(A|B).*(C|D)` under
`re.search` without `DOTALL`: from the current position, either some
second-group alternative starts here, or the current character is not a
newline and we advance. -/
def dotStarThen (alts : List (List Char)) : List Char → Bool
  | [] => alts.any (fun a => a.isEmpty)
  | c :: cs => alts.any (fun a => prefAt a (c :: cs)) || (c != '\n' && dotStarThen alts cs)

/-- Semantics of `re.search(r"(a1|...).*(b1|...)", text)`: at some position a
first-group alternative matches, and after it (with no intervening
newline) a second-group alternative matches. -/
def searchPair (alts1 alts2 : List (List Char)) : List Char → Bool
  | [] => alts1.any (fun a => a.isEmpty) && dotStarThen alts2 []
  | c :: cs =>
      alts1.any (fun a => prefAt a (c :: cs) && dotStarThen alts2 ((c :: cs).drop a.length))
        || searchPair alts1 alts2 cs

/-- Case-insensitive (`re.I`) search of a `(…|…).*(…|…)` pattern in a
text: both the pattern literals and the text are lowercased. -/
def searchPairCI (p : List String × List String) (text : String) : Bool :=
  searchPair (p.1.map (fun a => lowerStr a.data)) (p.2.map (fun a => lowerStr a.data))
    (lowerStr text.data)

/-- The `positive_patterns` of `_check_keyword_context`
(src/test_stretching.py lines 112-119), each regex
`(a1|a2).*(b1|…)` given as its two alternative groups. -/
def positive_patterns : List (List String × List String) :=
  [(["스트레칭", "stretching"], ["효과", "영향", "방법", "프로그램"]),
   (["근육", "muscle"], ["신장", "늘리기", "flexibility"]),
   (["운동", "exercise"], ["스트레칭", "stretching"]),
   (["유연성", "flexibility"], ["향상", "개선", "증가"]),
   (["mobility", "가동성"], ["exercise", "운동"]),
   (["rehabilitation", "재활"], ["program", "프로그램"])]

/-- Embeds `_check_keyword_context`: any positive pattern matches the text,
case-insensitively (src/test_stretching.py line 120). -/
def check_keyword_context (text : String) : Bool :=
  positive_patterns.any (fun p => searchPairCI p text)

/-- The `related_terms` of `_analyze_context`
(src/test_stretching.py lines 124-131). -/
def related_terms : List (List String × List String) :=
  [(["flexibility", "유연성"], ["improvement", "향상", "증가"]),
   (["mobility", "가동성"], ["exercise", "운동"]),
   (["rehabilitation", "재활"], ["program", "프로그램"]),
   (["muscle", "근육"], ["elongation", "신장", "늘리기"]),
   (["joint", "관절"], ["range", "가동", "움직임"]),
   (["posture", "자세"], ["correction", "교정", "개선"])]

/-- Embeds `_analyze_context`: any related-terms pattern matches the text,
case-insensitively (src/test_stretching.py line 132). -/
def analyze_context (text : String) : Bool :=
  related_terms.any (fun p => searchPairCI p text)

/-- The parsed body of a successful verification response:
`result.get("supported", False)` and `result.get("confidence", 0.0)`. -/
structure ApiResult where
  supported : Bool
  confidence : ℚ
deriving Repr, DecidableEq

/-- The dictionary returned by `classify_text`.  `Option` fields model
dictionary keys that are present only on one of the two return paths:
the success record (lines 90-98) carries `api_supported`,
`has_keyword` and `found_keywords` and no `error` key; the error record
(lines 102-108) carries `error` and none of those three. -/
structure ClassifyRecord where
  text : String
  is_stretching_related : Bool
  confidence : ℚ
  classification : String
  api_supported : Option Bool
  has_keyword_field : Option Bool
  found_keywords_field : Option (List String)
  error : Option String
deriving Repr, DecidableEq

/-- Embeds `StretchingClassifier.classify_text` (src/test_stretching.py lines
31-108).  The network call and JSON parse are the only fallible steps
and are modelled by the `api : Except String ApiResult` argument: `.ok`
is a 2xx response with parsed fields, `.error e` is any raised
exception with message `e`, caught by the `except` clause. -/
def classify_text (text : String) (api : Except String ApiResult) : ClassifyRecord :=
  let hk := has_keyword text
  match api with
  | .error e =>
      { text := text, is_stretching_related := false, confidence := 0,
        classification := "error", api_supported := none,
        has_keyword_field := none, found_keywords_field := none, error := some e }
  | .ok r =>
      let decision : Bool × String :=
        if hk then
          if r.confidence < 95/100 then (true, "keyword_based")
          else (check_keyword_context text, "high_confidence_with_context")
        else if r.confidence ≥ 95/100 then (r.supported, "api_based")
        else (analyze_context text, "context_based")
      { text := text, is_stretching_related := decision.1, confidence := r.confidence,
        classification := decision.2, api_supported := some r.supported,
        has_keyword_field := some hk,
        found_keywords_field := some (if hk then found_keywords text else []),
        error := none }

/-- The outcome of one HTTP attempt inside
`FactChecker.check_stretching_relevance_with_retry`:
a 429 status, a 2xx response with parsed `supported`/`confidence`
fields, or a raised `requests.exceptions.RequestException` (network
failure, non-200/429 status via `raise_for_status`, malformed JSON)
carrying its message. -/
inductive ApiResponse where
  | rateLimited
  | success (supported : Bool) (confidence : ℚ)
  | transportError (msg : String)
deriving Repr, DecidableEq

/-- The statistics counters of a `FactChecker` instance
(src/fact_checker.py lines 40-43). -/
structure Stats where
  total_requests : Nat
  successful_requests : Nat
  failed_requests : Nat
  rate_limited_requests : Nat
deriving Repr, DecidableEq

/-- The counters at construction time (all zero). -/
def initStats : Stats := ⟨0, 0, 0, 0⟩

/-- What a call to `check_stretching_relevance_with_retry` evaluates to.
`triple` is an explicit Python `return` of `(bool, float, str)`;
`pyNone` is the implicit `None` returned when the `for` loop over
attempts finishes without executing any `return`. -/
inductive CallResult where
  | triple (supported : Bool) (confidence : ℚ) (error : String)
  | pyNone
deriving Repr, DecidableEq

/-- A finished call: its Python return value, the updated counters, the
list of escalating backoff sleeps (in seconds) performed after 429
responses in order, and the number of loop iterations (attempts)
executed. -/
structure RunOutcome where
  result : CallResult
  stats : Stats
  backoffs : List Nat
  attemptsUsed : Nat
deriving Repr, DecidableEq

/-- The `for attempt in range(self.max_retries)` loop of
`check_stretching_relevance_with_retry` (src/fact_checker.py lines
81-135), with `fuel = max_retries - attempt` as the structural
recursion measure, so `fuel = 0` is loop exit and `fuel = 1` means
`attempt == max_retries - 1`.  `responses attempt` is the outcome of
the HTTP attempt with that index.  On 429: increment the rate-limited
counter, sleep `(attempt + 1) * 5` seconds (recorded in `backoffs`) and
`continue`.  On 2xx: increment the success counter and return
`(supported, confidence, "")`.  On a request exception: if this was the
last attempt, increment the failure counter and return
`(False, 0.0, str(e))`, else `continue`.  Falling out of the loop
returns Python `None`. -/
def attemptLoop (responses : Nat → ApiResponse) : Nat → Nat → Stats → RunOutcome
  | 0, _, s => ⟨.pyNone, s, [], 0⟩
  | fuel + 1, attempt, s =>
      match responses attempt with
      | .rateLimited =>
          let o := attemptLoop responses fuel (attempt + 1)
            { s with rate_limited_requests := s.rate_limited_requests + 1 }
          ⟨o.result, o.stats, (attempt + 1) * 5 :: o.backoffs, o.attemptsUsed + 1⟩
      | .success sup conf =>
          ⟨.triple sup conf "",
           { s with successful_requests := s.successful_requests + 1 }, [], 1⟩
      | .transportError m =>
          if fuel = 0 then
            ⟨.triple false 0 m,
             { s with failed_requests := s.failed_requests + 1 }, [], 1⟩
          else
            let o := attemptLoop responses fuel (attempt + 1) s
            ⟨o.result, o.stats, o.backoffs, o.attemptsUsed + 1⟩

/-- Embeds `FactChecker.check_stretching_relevance_with_retry`
(src/fact_checker.py lines 77-135): increment `total_requests` once at
entry, then run the attempt loop starting at attempt 0. -/
def check_stretching_relevance_with_retry (maxRetries : Nat)
    (responses : Nat → ApiResponse) (s : Stats) : RunOutcome :=
  attemptLoop responses maxRetries 0
    { s with total_requests := s.total_requests + 1 }

/-- Worker for `chunksOf`, structurally recursive on a fuel bound for
the list length: slice off a `n`-prefix and recurse on the rest. -/
def chunksOfGo (n : Nat) : Nat → List String → List (List String)
  | _, [] => []
  | 0, _ :: _ => []
  | fuel + 1, t :: ts =>
      match n with
      | 0 => []
      | m + 1 => (t :: ts).take (m + 1) :: chunksOfGo n fuel ((t :: ts).drop (m + 1))

/-- The `texts[i:i + batch_size]` chunking of `process_batch`
(src/fact_checker.py lines 140-141), for a positive chunk size
(`range(0, n, 0)` raises in Python, so `batch_size = 0` never chunks). -/
def chunksOf (n : Nat) (l : List String) : List (List String) :=
  chunksOfGo n l.length l

/-- The inner `for text in batch` body over one chunk: classify each
text in order, keeping `is_relevant` (the first component of the
returned triple).  Unpacking `None` — the all-429 exhaustion value —
raises `TypeError` in Python, modelled as `none`, which aborts the rest
of the iteration. -/
def processChunk (maxRetries : Nat) (env : String → Nat → ApiResponse) :
    List String → Stats → Option (List Bool) × Stats
  | [], s => (some [], s)
  | t :: ts, s =>
      let o := check_stretching_relevance_with_retry maxRetries (env t) s
      match o.result with
      | .pyNone => (none, o.stats)
      | .triple sup _ _ =>
          match processChunk maxRetries env ts o.stats with
          | (some l, s') => (some (sup :: l), s')
          | (none, s') => (none, s')

/-- The outer loop of `process_batch` over chunks, extending `results`
with each chunk's verdicts. -/
def processChunkList (maxRetries : Nat) (env : String → Nat → ApiResponse) :
    List (List String) → Stats → Option (List Bool) × Stats
  | [], s => (some [], s)
  | b :: bs, s =>
      match processChunk maxRetries env b s with
      | (some l, s') =>
          match processChunkList maxRetries env bs s' with
          | (some l', s'') => (some (l ++ l'), s'')
          | (none, s'') => (none, s'')
      | (none, s') => (none, s')

/-- Embeds `FactChecker.process_batch` (src/fact_checker.py lines 137-147):
partition the texts into `batch_size` chunks and classify each text in
order, where `env text` gives the per-attempt HTTP outcomes for the
calls on `text`. -/
def process_batch (batchSize maxRetries : Nat) (env : String → Nat → ApiResponse)
    (texts : List String) (s : Stats) : Option (List Bool) × Stats :=
  processChunkList maxRetries env (chunksOf batchSize texts) s

/-- A sequence of completed calls to
`check_stretching_relevance_with_retry` on one instance, each with its
own per-attempt outcomes, threading the counters. -/
def runCalls (maxRetries : Nat) : List (Nat → ApiResponse) → Stats → Stats
  | [], s => s
  | env :: rest, s =>
      runCalls maxRetries rest (check_stretching_relevance_with_retry maxRetries env s).stats

/-- The verdict a call's return value contributes in `process_batch`
(the first component of the triple). -/
def verdictOf : CallResult → Bool
  | .triple b _ _ => b
  | .pyNone => false

/-- Classifying a text on its own: the return value of a single call on
a freshly constructed instance. -/
def classifyAlone (maxRetries : Nat) (env : String → Nat → ApiResponse)
    (t : String) : CallResult :=
  (check_stretching_relevance_with_retry maxRetries (env t) initStats).result

/-- Counter bookkeeping of one pass of the attempt loop: the total is
untouched, the rate-limited counter counts the recorded backoffs, the
success/failure pair rises by exactly one unless the loop fell through,
both rise monotonically, and a failure increment means every remaining
attempt was consumed. -/
theorem attemptLoop_counters (responses : Nat → ApiResponse) (fuel : Nat) :
    ∀ (attempt : Nat) (s : Stats),
      (attemptLoop responses fuel attempt s).stats.total_requests = s.total_requests
    ∧ (attemptLoop responses fuel attempt s).stats.rate_limited_requests =
        s.rate_limited_requests + (attemptLoop responses fuel attempt s).backoffs.length
    ∧ (attemptLoop responses fuel attempt s).stats.successful_requests +
        (attemptLoop responses fuel attempt s).stats.failed_requests
        = s.successful_requests + s.failed_requests +
            (if (attemptLoop responses fuel attempt s).result = .pyNone then 0 else 1)
    ∧ s.successful_requests ≤ (attemptLoop responses fuel attempt s).stats.successful_requests
    ∧ s.failed_requests ≤ (attemptLoop responses fuel attempt s).stats.failed_requests
    ∧ ((attemptLoop responses fuel attempt s).stats.failed_requests = s.failed_requests + 1 →
         (attemptLoop responses fuel attempt s).attemptsUsed = fuel) := by
  induction fuel with
  | zero =>
      intro attempt s
      simp [attemptLoop]
  | succ fuel ih =>
      intro attempt s
      cases h : responses attempt with
      | rateLimited =>
          obtain ⟨h1, h2, h3, h4, h5, h6⟩ :=
            ih (attempt + 1)
              { s with rate_limited_requests := s.rate_limited_requests + 1 }
          simp only [attemptLoop, h] at *
          refine ⟨h1, ?_, ?_, h4, h5, ?_⟩
          · simp only [List.length_cons]; omega
          · exact h3
          · intro hf; rw [h6 hf]
      | success sup conf =>
          simp [attemptLoop, h]; omega
      | transportError m =>
          by_cases hf : fuel = 0
          · subst hf; simp [attemptLoop, h]; omega
          · obtain ⟨h1, h2, h3, h4, h5, h6⟩ := ih (attempt + 1) s
            simp only [attemptLoop, h, if_neg hf] at *
            refine ⟨h1, h2, h3, h4, h5, ?_⟩
            intro hx; rw [h6 hx]

/-- The control flow of the attempt loop is independent of the counters. -/
theorem attemptLoop_indep (responses : Nat → ApiResponse) (fuel : Nat) :
    ∀ (attempt : Nat) (s s' : Stats),
      (attemptLoop responses fuel attempt s).result =
        (attemptLoop responses fuel attempt s').result
    ∧ (attemptLoop responses fuel attempt s).backoffs =
        (attemptLoop responses fuel attempt s').backoffs
    ∧ (attemptLoop responses fuel attempt s).attemptsUsed =
        (attemptLoop responses fuel attempt s').attemptsUsed := by
  induction fuel with
  | zero => intro attempt s s'; simp [attemptLoop]
  | succ fuel ih =>
      intro attempt s s'
      cases h : responses attempt with
      | rateLimited =>
          obtain ⟨h1, h2, h3⟩ := ih (attempt + 1)
            { s with rate_limited_requests := s.rate_limited_requests + 1 }
            { s' with rate_limited_requests := s'.rate_limited_requests + 1 }
          simp only [attemptLoop, h]
          exact ⟨h1, by rw [h2], by rw [h3]⟩
      | success sup conf => simp [attemptLoop, h]
      | transportError m =>
          by_cases hf : fuel = 0
          · subst hf; simp [attemptLoop, h]
          · obtain ⟨h1, h2, h3⟩ := ih (attempt + 1) s s'
            simp only [attemptLoop, h, if_neg hf]
            exact ⟨h1, h2, by rw [h3]⟩

/-- When every attempt from `attempt` through the last one raises a
request exception, the loop returns the failure triple carrying the
last message and bumps the failure counter once. -/
theorem attemptLoop_all_transport (responses : Nat → ApiResponse) (m : Nat → String) :
    ∀ (fuel attempt : Nat) (s : Stats), 0 < fuel →
      (∀ i, attempt ≤ i → i < attempt + fuel → responses i = .transportError (m i)) →
      attemptLoop responses fuel attempt s =
        ⟨.triple false 0 (m (attempt + fuel - 1)),
         { s with failed_requests := s.failed_requests + 1 }, [], fuel⟩ := by
  intro fuel
  induction fuel with
  | zero => omega
  | succ f ih =>
      intro attempt s _ hresp
      have hcur : responses attempt = .transportError (m attempt) :=
        hresp attempt le_rfl (by omega)
      by_cases hf : f = 0
      · subst hf
        simp [attemptLoop, hcur]
      · have hrec := ih (attempt + 1) s (Nat.pos_of_ne_zero hf)
          (fun i h1 h2 => hresp i (by omega) (by omega))
        have e : attempt + 1 + f - 1 = attempt + (f + 1) - 1 := by omega
        rw [e] at hrec
        simp [attemptLoop, hcur, hf, hrec]

/-- Splitting off the head of a `List.range` map. -/
theorem range_map_shift (f : Nat → Nat) (k : Nat) :
    (List.range (k + 1)).map f = f 0 :: (List.range k).map (fun i => f (i + 1)) := by
  rw [List.range_succ_eq_map, List.map_cons, List.map_map]
  rfl

/-- When the attempts from `attempt` up to `attempt + k` (exclusive) are
rate-limited and attempt `attempt + k` succeeds, the loop returns the
parsed success, counts `k` rate limits, sleeps the escalating backoffs,
and uses `k + 1` attempts. -/
theorem attemptLoop_rl_then_success (responses : Nat → ApiResponse) (sup : Bool) (conf : ℚ) :
    ∀ (k attempt fuel : Nat) (s : Stats), k < fuel →
      (∀ i, attempt ≤ i → i < attempt + k → responses i = .rateLimited) →
      responses (attempt + k) = .success sup conf →
      attemptLoop responses fuel attempt s =
        ⟨.triple sup conf "",
         { s with successful_requests := s.successful_requests + 1,
                  rate_limited_requests := s.rate_limited_requests + k },
         (List.range k).map (fun i => (attempt + i + 1) * 5), k + 1⟩ := by
  intro k
  induction k with
  | zero =>
      intro attempt fuel s hfuel hrl hsucc
      cases fuel with
      | zero => omega
      | succ f =>
          rw [Nat.add_zero] at hsucc
          simp [attemptLoop, hsucc]
  | succ k ih =>
      intro attempt fuel s hfuel hrl hsucc
      cases fuel with
      | zero => omega
      | succ f =>
          have hcur : responses attempt = .rateLimited := hrl attempt le_rfl (by omega)
          have hrec := ih (attempt + 1) f
            { s with rate_limited_requests := s.rate_limited_requests + 1 }
            (by omega) (fun i h1 h2 => hrl i (by omega) (by omega))
            (by rw [show attempt + 1 + k = attempt + (k + 1) from by omega]; exact hsucc)
          simp only [attemptLoop, hcur, hrec, RunOutcome.mk.injEq, Stats.mk.injEq,
            true_and, and_true]
          refine ⟨by omega, ?_⟩
          rw [range_map_shift]
          refine congrArg₂ _ (by simp) ?_
          exact List.map_congr_left (fun i _ => by omega)

/-- C5: when every one of the `max_retries` attempts of a call raises a
transport error, the call returns `(false, 0.0, last message)`, the
failure counter rises by exactly one for the whole call (not once per
attempt), and the other counters move only by the entry increment of
`total_requests`. -/
theorem C5_transport_exhaustion (maxRetries : Nat) (responses : Nat → ApiResponse)
    (m : Nat → String) (s : Stats) (hpos : 0 < maxRetries)
    (hresp : ∀ i, i < maxRetries → responses i = .transportError (m i)) :
    check_stretching_relevance_with_retry maxRetries responses s =
      ⟨.triple false 0 (m (maxRetries - 1)),
       { s with total_requests := s.total_requests + 1,
                failed_requests := s.failed_requests + 1 }, [], maxRetries⟩ := by
  unfold check_stretching_relevance_with_retry
  rw [attemptLoop_all_transport responses m maxRetries 0 _ hpos
    (fun i _ h2 => hresp i (by omega))]
  simp

theorem C5_witness :
    check_stretching_relevance_with_retry 3 (fun _ => ApiResponse.transportError "boom")
        initStats =
      ⟨.triple false 0 "boom", ⟨1, 0, 1, 0⟩, [], 3⟩ :=
  C5_transport_exhaustion 3 (fun _ => ApiResponse.transportError "boom") (fun _ => "boom")
    initStats (by omega) (fun _ _ => rfl)

/-- C6: when the first `k ≤ max_retries - 1` attempts of a call are
rate-limited and attempt `k` succeeds, the call returns the parsed
success triple, the rate-limited counter rises by exactly `k`, the 429
of attempt `i` is followed by a backoff sleep of `(i + 1) * 5` seconds,
and the `k` rate limits consumed `k` of the attempts (`k + 1` in
total). -/
theorem C6_rate_limits_then_success (maxRetries k : Nat) (responses : Nat → ApiResponse)
    (sup : Bool) (conf : ℚ) (s : Stats)
    (hpos : 1 ≤ maxRetries) (hk : k ≤ maxRetries - 1)
    (hrl : ∀ i, i < k → responses i = .rateLimited)
    (hsucc : responses k = .success sup conf) :
    check_stretching_relevance_with_retry maxRetries responses s =
      ⟨.triple sup conf "",
       { s with total_requests := s.total_requests + 1,
                successful_requests := s.successful_requests + 1,
                rate_limited_requests := s.rate_limited_requests + k },
       (List.range k).map (fun i => (i + 1) * 5), k + 1⟩ := by
  unfold check_stretching_relevance_with_retry
  rw [attemptLoop_rl_then_success responses sup conf k 0 maxRetries _ (by omega)
    (fun i _ h2 => hrl i (by omega)) (by simpa using hsucc)]
  simp

theorem C6_witness :
    check_stretching_relevance_with_retry 5
        (fun i => if i < 2 then ApiResponse.rateLimited else ApiResponse.success true (8/10))
        initStats =
      ⟨.triple true (8/10) "", ⟨1, 1, 0, 2⟩, [5, 10], 3⟩ := by
  rw [C6_rate_limits_then_success 5 2
    (fun i => if i < 2 then ApiResponse.rateLimited else ApiResponse.success true (8/10))
    true (8/10) initStats (by omega) (by omega)
    (fun i hi => by interval_cases i <;> rfl) rfl]
  rfl

/-- C7: every call bumps `total_requests` by exactly one at initiation;
`failed_requests` rises by at most one per call, and only when the call
consumed all `max_retries` attempts; hence `successful + failed ≤
total` is preserved by every call. -/
theorem C7_counter_discipline (maxRetries : Nat) (responses : Nat → ApiResponse) (s : Stats) :
    (check_stretching_relevance_with_retry maxRetries responses s).stats.total_requests
        = s.total_requests + 1
    ∧ (check_stretching_relevance_with_retry maxRetries responses s).stats.failed_requests
        ≤ s.failed_requests + 1
    ∧ ((check_stretching_relevance_with_retry maxRetries responses s).stats.failed_requests
          = s.failed_requests + 1 →
        (check_stretching_relevance_with_retry maxRetries responses s).attemptsUsed
          = maxRetries)
    ∧ (s.successful_requests + s.failed_requests ≤ s.total_requests →
        (check_stretching_relevance_with_retry maxRetries responses s).stats.successful_requests
          + (check_stretching_relevance_with_retry maxRetries responses s).stats.failed_requests
          ≤ (check_stretching_relevance_with_retry maxRetries responses s).stats.total_requests) := by
  obtain ⟨h1, h2, h3, h4, h5, h6⟩ := attemptLoop_counters responses maxRetries 0
    { s with total_requests := s.total_requests + 1 }
  dsimp only at h1 h3 h4 h5 h6
  unfold check_stretching_relevance_with_retry
  by_cases hr : (attemptLoop responses maxRetries 0
      { s with total_requests := s.total_requests + 1 }).result = .pyNone <;>
    simp only [hr, if_true, if_false, reduceIte] at h3 <;>
    exact ⟨h1, by omega, h6, fun hle => by omega⟩

theorem C7_witness :
    (check_stretching_relevance_with_retry 2 (fun _ => ApiResponse.success true 1)
        ⟨5, 2, 1, 0⟩).stats.total_requests = 6
    ∧ (check_stretching_relevance_with_retry 2 (fun _ => ApiResponse.success true 1)
          ⟨5, 2, 1, 0⟩).stats.successful_requests
        + (check_stretching_relevance_with_retry 2 (fun _ => ApiResponse.success true 1)
          ⟨5, 2, 1, 0⟩).stats.failed_requests
        ≤ (check_stretching_relevance_with_retry 2 (fun _ => ApiResponse.success true 1)
          ⟨5, 2, 1, 0⟩).stats.total_requests :=
  ⟨(C7_counter_discipline 2 (fun _ => ApiResponse.success true 1) ⟨5, 2, 1, 0⟩).1,
   (C7_counter_discipline 2 (fun _ => ApiResponse.success true 1) ⟨5, 2, 1, 0⟩).2.2.2
     (by decide)⟩

/-- Accumulated counter facts over a sequence of completed calls:
the total counts the calls, success and failure grow monotonically,
their sum is bounded by the number of calls, and it equals the number
of calls when no call fell out of its loop (returned `None`). -/
theorem runCalls_spec (maxRetries : Nat) :
    ∀ (calls : List (Nat → ApiResponse)) (s : Stats),
      (runCalls maxRetries calls s).total_requests = s.total_requests + calls.length
    ∧ s.successful_requests ≤ (runCalls maxRetries calls s).successful_requests
    ∧ s.failed_requests ≤ (runCalls maxRetries calls s).failed_requests
    ∧ (runCalls maxRetries calls s).successful_requests
        + (runCalls maxRetries calls s).failed_requests
        ≤ s.successful_requests + s.failed_requests + calls.length
    ∧ ((∀ env ∈ calls,
          (check_stretching_relevance_with_retry maxRetries env initStats).result ≠ .pyNone) →
        (runCalls maxRetries calls s).successful_requests
          + (runCalls maxRetries calls s).failed_requests
          = s.successful_requests + s.failed_requests + calls.length) := by
  intro calls
  induction calls with
  | nil => intro s; simp [runCalls]
  | cons env rest ih =>
      intro s
      obtain ⟨g1, g2, g3, g4, g5, g6⟩ := attemptLoop_counters env maxRetries 0
        { s with total_requests := s.total_requests + 1 }
      dsimp only at g1 g3 g4 g5
      obtain ⟨i1, i2, i3, i4, i5⟩ :=
        ih (check_stretching_relevance_with_retry maxRetries env s).stats
      have hstats : (check_stretching_relevance_with_retry maxRetries env s).stats =
          (attemptLoop env maxRetries 0
            { s with total_requests := s.total_requests + 1 }).stats := rfl
      rw [hstats] at i1 i2 i3 i4 i5
      have hrun : runCalls maxRetries (env :: rest) s =
          runCalls maxRetries rest (attemptLoop env maxRetries 0
            { s with total_requests := s.total_requests + 1 }).stats := rfl
      rw [hrun]
      simp only [List.length_cons]
      by_cases hr : (attemptLoop env maxRetries 0
          { s with total_requests := s.total_requests + 1 }).result = .pyNone <;>
        simp only [hr, if_true, if_false, reduceIte] at g3
      · refine ⟨by omega, by omega, by omega, by omega, ?_⟩
        intro hall
        exfalso
        have hne := hall env (List.mem_cons_self env rest)
        have hind := (attemptLoop_indep env maxRetries 0
          { s with total_requests := s.total_requests + 1 }
          { initStats with total_requests := initStats.total_requests + 1 }).1
        exact hne (hind ▸ hr)
      · refine ⟨by omega, by omega, by omega, by omega, ?_⟩
        intro hall
        have heq := i5 (fun e he => hall e (List.mem_cons_of_mem env he))
        omega

/-- C4 (amended): after any sequence of completed calls on one
instance, `successful + failed ≤ total` with each counter at most
`total`; the stronger equality `successful + failed = total` holds
provided no call exhausted all of its attempts on rate-limited
responses (every call returned a triple rather than falling out of its
loop). -/
theorem C4_counter_invariant_amended (maxRetries : Nat) (calls : List (Nat → ApiResponse)) :
    (runCalls maxRetries calls initStats).successful_requests
        + (runCalls maxRetries calls initStats).failed_requests
      ≤ (runCalls maxRetries calls initStats).total_requests
    ∧ (runCalls maxRetries calls initStats).successful_requests
      ≤ (runCalls maxRetries calls initStats).total_requests
    ∧ (runCalls maxRetries calls initStats).failed_requests
      ≤ (runCalls maxRetries calls initStats).total_requests
    ∧ ((∀ env ∈ calls,
          (check_stretching_relevance_with_retry maxRetries env initStats).result ≠ .pyNone) →
        (runCalls maxRetries calls initStats).successful_requests
          + (runCalls maxRetries calls initStats).failed_requests
          = (runCalls maxRetries calls initStats).total_requests) := by
  obtain ⟨h1, h2, h3, h4, h5⟩ := runCalls_spec maxRetries calls initStats
  have e1 : initStats.total_requests = 0 := rfl
  have e2 : initStats.successful_requests = 0 := rfl
  have e3 : initStats.failed_requests = 0 := rfl
  simp only [e1, e2, e3, Nat.zero_add, Nat.add_zero] at h1 h2 h3 h4 h5
  refine ⟨by omega, by omega, by omega, fun hall => ?_⟩
  have := h5 hall
  omega

/-- C4 (counterexample): a single call whose three attempts are all
rate-limited is an exhaustion, yet afterwards `successful + failed = 0`
while `total = 1`, refuting `successful + failed = total`. -/
theorem C4_counterexample :
    ¬ ((runCalls 3 [fun _ => ApiResponse.rateLimited] initStats).successful_requests
        + (runCalls 3 [fun _ => ApiResponse.rateLimited] initStats).failed_requests
      = (runCalls 3 [fun _ => ApiResponse.rateLimited] initStats).total_requests) := by
  decide

theorem C4_witness :
    (runCalls 2 [fun _ => ApiResponse.success true 1, fun _ => ApiResponse.transportError "x"]
        initStats).successful_requests
      + (runCalls 2 [fun _ => ApiResponse.success true 1,
          fun _ => ApiResponse.transportError "x"] initStats).failed_requests
      = (runCalls 2 [fun _ => ApiResponse.success true 1,
          fun _ => ApiResponse.transportError "x"] initStats).total_requests := by
  refine (C4_counter_invariant_amended 2
    [fun _ => ApiResponse.success true 1, fun _ => ApiResponse.transportError "x"]).2.2.2 ?_
  intro env henv
  rcases List.mem_cons.mp henv with rfl | henv
  · decide
  rcases List.mem_cons.mp henv with rfl | henv
  · decide
  exact absurd henv (List.not_mem_nil env)

/-- C2 (bug evidence): with every attempt rate-limited, the call falls
out of the retry loop and returns Python `None` — not the documented
failure triple — and neither the success nor the failure counter moves. -/
theorem C2_all_429_returns_pyNone :
    check_stretching_relevance_with_retry 3 (fun _ => ApiResponse.rateLimited) initStats
      = ⟨.pyNone, ⟨1, 0, 0, 3⟩, [5, 10, 15], 3⟩ := by decide

/-- C3 (bug evidence): when the middle text of a three-text batch
exhausts all attempts on 429s, unpacking the `None` return aborts
`process_batch`: no result list is produced and the third text is never
classified (only two calls were initiated). -/
theorem C3_batch_aborts_on_429_exhaustion :
    process_batch 3 3
        (fun t _ => if t = "b" then ApiResponse.rateLimited else ApiResponse.success true 1)
        ["a", "b", "c"] initStats
      = (none, ⟨2, 1, 0, 3⟩) := by decide

/-- Processing a concatenation of text lists equals processing the two
parts in sequence, aborting where the first part aborts. -/
theorem processChunk_append (maxRetries : Nat) (env : String → Nat → ApiResponse)
    (l1 l2 : List String) :
    ∀ s : Stats,
      processChunk maxRetries env (l1 ++ l2) s =
        match processChunk maxRetries env l1 s with
        | (some r1, s1) =>
            match processChunk maxRetries env l2 s1 with
            | (some r2, s2) => (some (r1 ++ r2), s2)
            | (none, s2) => (none, s2)
        | (none, s1) => (none, s1) := by
  induction l1 with
  | nil =>
      intro s
      simp only [List.nil_append, processChunk]
      rcases h2 : processChunk maxRetries env l2 s with ⟨r2, s2⟩
      cases r2 <;> simp
  | cons t ts ih =>
      intro s
      simp only [List.cons_append, processChunk]
      cases hres : (check_stretching_relevance_with_retry maxRetries (env t) s).result with
      | pyNone => rfl
      | triple sup c e =>
          dsimp only
          rw [List.append_eq, ih]
          rcases h1 : processChunk maxRetries env ts
              (check_stretching_relevance_with_retry maxRetries (env t) s).stats with ⟨r1, s1⟩
          cases r1 with
          | none => rfl
          | some l =>
              dsimp only
              rcases h2 : processChunk maxRetries env l2 s1 with ⟨r2, s2⟩
              cases r2 <;> rfl

/-- The chunked outer loop of `process_batch` is the plain loop over
the flattened chunk list. -/
theorem processChunkList_flatten (maxRetries : Nat) (env : String → Nat → ApiResponse) :
    ∀ (bs : List (List String)) (s : Stats),
      processChunkList maxRetries env bs s = processChunk maxRetries env bs.flatten s := by
  intro bs
  induction bs with
  | nil => intro s; simp [processChunkList, processChunk]
  | cons b bs ih =>
      intro s
      rw [List.flatten_cons, processChunk_append]
      simp only [processChunkList]
      rcases h1 : processChunk maxRetries env b s with ⟨r1, s1⟩
      cases r1 with
      | none => rfl
      | some l =>
          dsimp only
          rw [ih]

/-- The worker of `chunksOf` recomposes the input list, given enough
fuel and a positive chunk size. -/
theorem chunksOfGo_flatten (m : Nat) :
    ∀ (fuel : Nat) (l : List String), l.length ≤ fuel →
      (chunksOfGo (m + 1) fuel l).flatten = l := by
  intro fuel
  induction fuel with
  | zero =>
      intro l h
      cases l with
      | nil => rfl
      | cons t ts => simp at h
  | succ f ih =>
      intro l h
      cases l with
      | nil => rfl
      | cons t ts =>
          simp only [chunksOfGo, List.flatten_cons]
          rw [ih (((t :: ts).drop (m + 1)))
            (by simp only [List.length_drop, List.length_cons] at h ⊢; omega)]
          exact List.take_append_drop _ _

/-- Chunking with any positive size recomposes the input. -/
theorem chunksOf_flatten (n : Nat) (l : List String) (h : 0 < n) :
    (chunksOf n l).flatten = l := by
  obtain ⟨m, rfl⟩ : ∃ m, n = m + 1 := ⟨n - 1, by omega⟩
  exact chunksOfGo_flatten m l.length l le_rfl

/-- When every text in a list classifies to a triple, the plain loop
returns every verdict, in input order. -/
theorem processChunk_verdicts (maxRetries : Nat) (env : String → Nat → ApiResponse) :
    ∀ (ts : List String) (s : Stats),
      (∀ t ∈ ts, classifyAlone maxRetries env t ≠ .pyNone) →
      (processChunk maxRetries env ts s).1 =
        some (ts.map (fun t => verdictOf (classifyAlone maxRetries env t))) := by
  intro ts
  induction ts with
  | nil => intro s h; rfl
  | cons t ts ih =>
      intro s h
      have hres : (check_stretching_relevance_with_retry maxRetries (env t) s).result
          = classifyAlone maxRetries env t :=
        (attemptLoop_indep (env t) maxRetries 0 _ _).1
      have ht := h t (List.mem_cons_self t ts)
      simp only [processChunk, List.map_cons]
      cases hc : classifyAlone maxRetries env t with
      | pyNone => exact absurd hc ht
      | triple sup c e =>
          rw [hres, hc]
          rcases h1 : processChunk maxRetries env ts
              (check_stretching_relevance_with_retry maxRetries (env t) s).stats with ⟨r1, s1⟩
          have := ih (check_stretching_relevance_with_retry maxRetries (env t) s).stats
            (fun u hu => h u (List.mem_cons_of_mem t hu))
          rw [h1] at this
          simp only at this
          simp [this, verdictOf, hc]

/-- C9 (amended): for a positive `batch_size`, provided every per-text
call completes with a triple (no text exhausts all its attempts on 429
responses), `process_batch` returns exactly one boolean per input
text, in input order, each being the verdict of classifying that text
alone; the right-hand side does not mention `batch_size` or the
starting counters, so the output is identical for every positive chunk
size. -/
theorem C9_order_and_chunk_independence (batchSize maxRetries : Nat)
    (env : String → Nat → ApiResponse) (texts : List String) (s : Stats)
    (hb : 0 < batchSize)
    (hall : ∀ t ∈ texts, classifyAlone maxRetries env t ≠ .pyNone) :
    (process_batch batchSize maxRetries env texts s).1 =
      some (texts.map (fun t => verdictOf (classifyAlone maxRetries env t))) := by
  unfold process_batch
  rw [processChunkList_flatten, chunksOf_flatten batchSize texts hb]
  exact processChunk_verdicts maxRetries env texts s hall

/-- C9 (counterexample): with a single text whose attempts are all
rate-limited, `process_batch` produces no result list at all — the
`None` unpacking aborts it — so it does not return one boolean per
input text. -/
theorem C9_counterexample :
    (process_batch 1 3 (fun _ _ => ApiResponse.rateLimited) ["a"] initStats).1 = none := by
  decide

theorem C9_witness :
    (process_batch 2 3 (fun _ _ => ApiResponse.success true 1) ["a", "b", "c"] initStats).1
      = some [true, true, true] := by
  rw [C9_order_and_chunk_independence 2 3 (fun _ _ => ApiResponse.success true 1)
    ["a", "b", "c"] initStats (by omega) (by intro t ht; fin_cases ht <;> decide)]
  rfl

/-- C1: the four-row decision table of `classify_text` on a successful
verification response: keyword with confidence below 0.95 is relevant
as `keyword_based`; keyword with confidence at least 0.95 defers to the
positive-pattern context check as `high_confidence_with_context`; no
keyword with confidence at least 0.95 adopts the verifier verdict as
`api_based`; no keyword with confidence below 0.95 defers to the
general context analysis as `context_based`. -/
theorem C1_decision_table (text : String) (supported : Bool) (conf : ℚ) :
    (has_keyword text = true → conf < 95/100 →
      (classify_text text (.ok ⟨supported, conf⟩)).is_stretching_related = true
      ∧ (classify_text text (.ok ⟨supported, conf⟩)).classification = "keyword_based")
    ∧ (has_keyword text = true → 95/100 ≤ conf →
      (classify_text text (.ok ⟨supported, conf⟩)).is_stretching_related
          = check_keyword_context text
      ∧ (classify_text text (.ok ⟨supported, conf⟩)).classification
          = "high_confidence_with_context")
    ∧ (has_keyword text = false → 95/100 ≤ conf →
      (classify_text text (.ok ⟨supported, conf⟩)).is_stretching_related = supported
      ∧ (classify_text text (.ok ⟨supported, conf⟩)).classification = "api_based")
    ∧ (has_keyword text = false → conf < 95/100 →
      (classify_text text (.ok ⟨supported, conf⟩)).is_stretching_related
          = analyze_context text
      ∧ (classify_text text (.ok ⟨supported, conf⟩)).classification = "context_based") := by
  refine ⟨fun hk hc => ?_, fun hk hc => ?_, fun hk hc => ?_, fun hk hc => ?_⟩
  · simp [classify_text, hk, hc]
  · simp [classify_text, hk, not_lt.mpr hc]
  · simp [classify_text, hk, hc, not_lt.mpr hc]
  · simp [classify_text, hk, hc, not_le.mpr hc]

theorem C1_witness :
    has_keyword "스트레칭의 효과" = true
    ∧ (95 : ℚ)/100 ≤ 99/100
    ∧ (classify_text "스트레칭의 효과" (.ok ⟨false, 99/100⟩)).is_stretching_related
        = check_keyword_context "스트레칭의 효과"
    ∧ (classify_text "스트레칭의 효과" (.ok ⟨false, 99/100⟩)).classification
        = "high_confidence_with_context" :=
  ⟨by decide, by norm_num,
   ((C1_decision_table "스트레칭의 효과" false (99/100)).2.1 (by decide) (by norm_num)).1,
   ((C1_decision_table "스트레칭의 효과" false (99/100)).2.1 (by decide) (by norm_num)).2⟩

/-- C8 (bug evidence): "ROM" is in the keyword list and a
case-insensitive substring search finds it in the text "ROM", yet the
code compares the keyword as written against the lowercased text, so
`has_keyword` is false and no keyword is reported: the uppercase
entries of the list can never match any text.  The reported keywords
do follow canonical list order (not text order), as the last conjunct
shows. -/
theorem C8_keyword_case_bug :
    "ROM" ∈ stretching_keywords
    ∧ spec_has_keyword_ci "ROM" = true
    ∧ has_keyword "ROM" = false
    ∧ found_keywords "ROM" = []
    ∧ found_keywords "muscle stretching and flexibility"
        = ["stretching", "flexibility", "muscle stretching"] := by decide

/-- C10: whenever the API call raises, `classify_text` returns — rather
than propagating — the error record: relevance false, confidence 0,
classification "error", the message kept, and none of the
`api_supported`, `has_keyword`, `found_keywords` keys of a success
record. -/
theorem C10_error_record (text msg : String) :
    classify_text text (.error msg) =
      { text := text, is_stretching_related := false, confidence := 0,
        classification := "error", api_supported := none,
        has_keyword_field := none, found_keywords_field := none, error := some msg } := rfl

end CoachML
